import Mathlib

set_option maxRecDepth 4000

/-!
Verification of the Notion-Random-Task pipeline (src/update_database.py).

The Python source is shallowly embedded: every pure transformation becomes a
Lean function over `String`/`List`, machine effects (HTTP calls, the OpenAI
completion call, the entropy source, the wall clock) are made explicit inputs
through an `Env` record, and every HTTP request the code would issue is
recorded in an explicit request log so that write-discipline properties can be
stated.  Python strings are modelled as Lean `String` (a list of unicode
scalar values, matching the Python code-point semantics for `len` and slicing).
-/

namespace NotionTask

/-- Whitespace stripped by Python `str.strip()` (the ASCII whitespace class;
the claims never involve the additional non-ASCII Unicode space characters
that Python would also strip). -/
def pyIsSpace (c : Char) : Bool :=
  c = ' ' || c = '\t' || c = '\n' || c = '\r' || c = '\x0b' || c = '\x0c'

/-- Strip characters satisfying `p` from both ends of a character list,
as Python `str.strip` / `str.strip(chars)` does. -/
def stripEnds (p : Char → Bool) (cs : List Char) : List Char :=
  List.rdropWhile p (List.dropWhile p cs)

/-- Python `s.strip()`. -/
def pyStrip (s : String) : String :=
  ⟨stripEnds pyIsSpace s.data⟩

/-- Python `s.strip('"')`: remove all leading and trailing double quotes. -/
def stripQuotes (s : String) : String :=
  ⟨stripEnds (fun c => c = '"') s.data⟩

/-- Python `s.lower()` (character-wise). -/
def toLowerStr (s : String) : String :=
  ⟨s.data.map Char.toLower⟩

/-- Does `cs` start with `pat`?  Python `str.startswith`. -/
def listStartsWith (pat cs : List Char) : Bool :=
  match pat, cs with
  | [], _ => true
  | _ :: _, [] => false
  | p :: ps, c :: rest => p = c && listStartsWith ps rest

/-- Python `s.startswith(pat)`. -/
def strStarts (s pat : String) : Bool :=
  listStartsWith pat.data s.data

/-- Substring containment, Python `pat in hay`. -/
def containsSub (hay pat : List Char) : Bool :=
  match hay with
  | [] => pat.isEmpty
  | _ :: t => listStartsWith pat hay || containsSub t pat

/-- Python `pat in s`. -/
def strContains (s pat : String) : Bool :=
  containsSub s.data pat.data

/-- Python `s.split(sep)` for a single-character separator. -/
def splitOnCharAux (sep : Char) : List Char → List Char → List String
  | [], acc => [⟨acc.reverse⟩]
  | c :: rest, acc =>
    if c = sep then ⟨acc.reverse⟩ :: splitOnCharAux sep rest []
    else splitOnCharAux sep rest (c :: acc)

def splitOnChar (sep : Char) (s : String) : List String :=
  splitOnCharAux sep s.data []

/-- Python `s.split(sep)` for a multi-character separator (fuel-driven scan;
the fuel `cs.length + 1` always suffices because every step consumes input). -/
def splitOnSubAux (pat : List Char) : Nat → List Char → List Char → List (List Char)
  | 0, cs, acc => [acc.reverse ++ cs]
  | fuel + 1, cs, acc =>
    if listStartsWith pat cs ∧ pat ≠ [] then
      acc.reverse :: splitOnSubAux pat fuel (cs.drop pat.length) []
    else
      match cs with
      | [] => [acc.reverse]
      | c :: rest => splitOnSubAux pat fuel rest (c :: acc)

def splitOnStr (s pat : String) : List String :=
  (splitOnSubAux pat.data (s.data.length + 1) s.data []).map (fun cs => ⟨cs⟩)

/-- Python `line.split(":")[-1]`: everything after the last colon
(the whole line when it has no colon). -/
def afterLastColon (s : String) : String :=
  (splitOnChar ':' s).getLastD ""

/-! ## Content Fetcher (src/update_database.py, get_page_content lines 101-165)

A Notion block is modelled by its `type` tag and the list of plain-text values
of its `rich_text` runs; unhandled types keep only their tag. -/

inductive Block where
  | paragraph (runs : List String)
  | heading1 (runs : List String)
  | heading2 (runs : List String)
  | heading3 (runs : List String)
  | bulleted (runs : List String)
  | numbered (runs : List String)
  | todo (runs : List String)
  | toggle (runs : List String)
  | other (kind : String)
deriving DecidableEq

/-- One iteration of the block loop: the emitted line, if any.  The Python
guard is `if text_content:` - the *run list* must be non-empty; the plain-text
values are then concatenated (`"".join`). -/
def flattenBlock : Block → Option String
  | .paragraph runs => if runs.isEmpty then none else some (String.join runs)
  | .heading1 runs => if runs.isEmpty then none else some ("# " ++ String.join runs)
  | .heading2 runs => if runs.isEmpty then none else some ("## " ++ String.join runs)
  | .heading3 runs => if runs.isEmpty then none else some ("### " ++ String.join runs)
  | .bulleted runs => if runs.isEmpty then none else some ("- " ++ String.join runs)
  | .numbered runs => if runs.isEmpty then none else some ("1. " ++ String.join runs)
  | .todo runs => if runs.isEmpty then none else some ("☐ " ++ String.join runs)
  | .toggle runs => if runs.isEmpty then none else some ("▼ " ++ String.join runs)
  | .other _ => none

/-- Python `"\n".join(content)` over the per-block lines. -/
def flattenBlocks (blocks : List Block) : String :=
  String.intercalate "\n" (blocks.filterMap flattenBlock)

/-! ## Task Extractor (extract_individual_tasks, lines 167-208) -/

/-- The skip condition of the loop (headers, short lines, bare markers). -/
def isSkippedLine (line : String) : Bool :=
  strStarts line "#" || strStarts line "##" || strStarts line "###" ||
    decide (line.length < 5) ||
    line == "" || line == " " || line == "-" || line == "*"

/-- Remove one leading list marker, checked in source order. -/
def stripTaskMarker (s : String) : String :=
  if strStarts s "- " then ⟨s.data.drop 2⟩
  else if strStarts s "1. " then ⟨s.data.drop 3⟩
  else if strStarts s "☐ " then ⟨s.data.drop 2⟩
  else s

/-- One iteration of the task loop, as an optional emitted task. -/
def extractLine (line : String) : Option String :=
  if isSkippedLine line then none
  else
    let clean := stripTaskMarker (pyStrip line)
    if clean ≠ "" ∧ 5 < clean.length then some clean else none

/-- Source `extract_individual_tasks`: split, strip, drop empties, then filter and
clean each line. -/
def extract_individual_tasks (goalsContent : String) : List String :=
  (((splitOnChar '\n' goalsContent).map pyStrip).filter (fun l => l != "")).filterMap
    extractLine

/-! ## Selector (select_random_task, lines 210-231)

`random.choice(tasks)` draws a uniformly random index into the sequence; the
draw is made explicit as the `pick` argument (reduced modulo the length). -/

def select_random_task (tasks : List String) (pick : Nat) : String :=
  match tasks with
  | [] => "Review and update your goals"
  | t :: ts =>
    (t :: ts).get ⟨pick % (t :: ts).length, Nat.mod_lt _ (Nat.succ_pos ts.length)⟩

/-! ## JSON values and `json.loads`

`generate_task_with_chatgpt` calls the Python standard library `json.loads`.
It is modelled here by a strict recursive-descent parser over the JSON value
grammar (objects, arrays, strings with escapes, numbers, `true`/`false`/
`null`, plus the `NaN`/`Infinity` extensions `json.loads` accepts), failing on
anything else or on trailing garbage, exactly as `json.loads` does on the
inputs the claims are about. -/

inductive Json where
  | null
  | bool (b : Bool)
  | num (lexeme : String)
  | str (s : String)
  | arr (elems : List Json)
  | obj (fields : List (String × Json))
deriving Inhabited

/-- JSON insignificant whitespace. -/
def jsonWs (c : Char) : Bool :=
  c = ' ' || c = '\t' || c = '\n' || c = '\r'

def skipWs (cs : List Char) : List Char :=
  cs.dropWhile jsonWs

def hexDigitVal (c : Char) : Option Nat :=
  if '0' ≤ c ∧ c ≤ '9' then some (c.toNat - '0'.toNat)
  else if 'a' ≤ c ∧ c ≤ 'f' then some (c.toNat - 'a'.toNat + 10)
  else if 'A' ≤ c ∧ c ≤ 'F' then some (c.toNat - 'A'.toNat + 10)
  else none

/-- Parse the body of a JSON string (opening quote already consumed). -/
def parseStringBody : Nat → List Char → List Char → Option (String × List Char)
  | 0, _, _ => none
  | fuel + 1, acc, cs =>
    match cs with
    | [] => none
    | '"' :: rest => some (⟨acc.reverse⟩, rest)
    | '\\' :: rest =>
      match rest with
      | 'u' :: r2 =>
        match r2 with
        | h1 :: h2 :: h3 :: h4 :: r3 =>
          match hexDigitVal h1, hexDigitVal h2, hexDigitVal h3, hexDigitVal h4 with
          | some a, some b, some c, some d =>
            parseStringBody fuel (Char.ofNat (((a * 16 + b) * 16 + c) * 16 + d) :: acc) r3
          | _, _, _, _ => none
        | _ => none
      | e :: r2 =>
        let esc : Option Char :=
          if e = '"' then some '"'
          else if e = '\\' then some '\\'
          else if e = '/' then some '/'
          else if e = 'b' then some '\x08'
          else if e = 'f' then some '\x0c'
          else if e = 'n' then some '\n'
          else if e = 'r' then some '\r'
          else if e = 't' then some '\t'
          else none
        match esc with
        | some ch => parseStringBody fuel (ch :: acc) r2
        | none => none
      | [] => none
    | c :: rest =>
      if c.toNat < 32 then none else parseStringBody fuel (c :: acc) rest

/-- Optional fraction part of a JSON number. -/
def parseFracPart (cs : List Char) : Option (List Char × List Char) :=
  match cs with
  | '.' :: r =>
    let ds := r.takeWhile Char.isDigit
    if ds.isEmpty then none else some ('.' :: ds, r.dropWhile Char.isDigit)
  | _ => some ([], cs)

/-- Optional exponent part of a JSON number. -/
def parseExpPart (cs : List Char) : Option (List Char × List Char) :=
  match cs with
  | c :: r =>
    if c = 'e' ∨ c = 'E' then
      let sgnRest : List Char × List Char :=
        match r with
        | s :: r3 => if s = '+' ∨ s = '-' then ([s], r3) else ([], r)
        | [] => ([], r)
      let ds := sgnRest.2.takeWhile Char.isDigit
      if ds.isEmpty then none
      else some (c :: (sgnRest.1 ++ ds), sgnRest.2.dropWhile Char.isDigit)
    else some ([], cs)
  | [] => some ([], cs)

/-- Parse a JSON number, returning its lexeme (values are never computed on:
the code only ever forwards them). -/
def parseNumber (cs : List Char) : Option (String × List Char) :=
  let signRest : List Char × List Char :=
    match cs with
    | '-' :: r => (['-'], r)
    | _ => ([], cs)
  match signRest.2 with
  | c :: r =>
    if c.isDigit then
      let intRest : List Char × List Char :=
        if c = '0' then (['0'], r)
        else (c :: r.takeWhile Char.isDigit, r.dropWhile Char.isDigit)
      match parseFracPart intRest.2 with
      | none => none
      | some (fp, rest2) =>
        match parseExpPart rest2 with
        | none => none
        | some (ep, rest3) => some (⟨signRest.1 ++ intRest.1 ++ fp ++ ep⟩, rest3)
    else none
  | [] => none

mutual

def parseValue : Nat → List Char → Option (Json × List Char)
  | 0, _ => none
  | fuel + 1, cs0 =>
    let cs := skipWs cs0
    match cs with
    | '{' :: rest => parseObjBody fuel (skipWs rest)
    | '[' :: rest => parseArrBody fuel (skipWs rest)
    | '"' :: rest =>
      match parseStringBody (rest.length + 1) [] rest with
      | some (s, r) => some (.str s, r)
      | none => none
    | 't' :: _ =>
      if listStartsWith ("true".data) cs then some (.bool true, cs.drop 4) else none
    | 'f' :: _ =>
      if listStartsWith ("false".data) cs then some (.bool false, cs.drop 5) else none
    | 'n' :: _ =>
      if listStartsWith ("null".data) cs then some (.null, cs.drop 4) else none
    | 'N' :: _ =>
      if listStartsWith ("NaN".data) cs then some (.num "NaN", cs.drop 3) else none
    | 'I' :: _ =>
      if listStartsWith ("Infinity".data) cs then some (.num "Infinity", cs.drop 8)
      else none
    | '-' :: 'I' :: _ =>
      if listStartsWith ("-Infinity".data) cs then some (.num "-Infinity", cs.drop 9)
      else none
    | _ =>
      match parseNumber cs with
      | some (lx, r) => some (.num lx, r)
      | none => none

def parseObjBody : Nat → List Char → Option (Json × List Char)
  | 0, _ => none
  | fuel + 1, cs =>
    match cs with
    | '}' :: rest => some (.obj [], rest)
    | _ => parseMembers fuel cs []

def parseMembers : Nat → List Char → List (String × Json) → Option (Json × List Char)
  | 0, _, _ => none
  | fuel + 1, cs, acc =>
    match cs with
    | '"' :: r =>
      match parseStringBody (r.length + 1) [] r with
      | none => none
      | some (k, r2) =>
        match skipWs r2 with
        | ':' :: r4 =>
          match parseValue fuel r4 with
          | none => none
          | some (v, r5) =>
            match skipWs r5 with
            | ',' :: r7 => parseMembers fuel (skipWs r7) ((k, v) :: acc)
            | '}' :: r7 => some (.obj ((k, v) :: acc).reverse, r7)
            | _ => none
        | _ => none
    | _ => none

def parseArrBody : Nat → List Char → Option (Json × List Char)
  | 0, _ => none
  | fuel + 1, cs =>
    match cs with
    | ']' :: rest => some (.arr [], rest)
    | _ => parseElems fuel cs []

def parseElems : Nat → List Char → List Json → Option (Json × List Char)
  | 0, _, _ => none
  | fuel + 1, cs, acc =>
    match parseValue fuel cs with
    | none => none
    | some (v, r) =>
      match skipWs r with
      | ',' :: r2 => parseElems fuel r2 (v :: acc)
      | ']' :: r2 => some (.arr (v :: acc).reverse, r2)
      | _ => none

end

/-- Model of `json.loads`: parse one value, allow surrounding whitespace, reject
trailing garbage.  The fuel is generous: every recursive call consumes input. -/
def json_loads (s : String) : Option Json :=
  match parseValue (2 * s.data.length + 16) s.data with
  | some (v, rest) => if (skipWs rest).isEmpty then some v else none
  | none => none

/-- Lookup in a parsed object, later duplicate keys winning as in a Python
dict built by `json.loads`. -/
def objGetLast (fields : List (String × Json)) (key : String) : Option Json :=
  (fields.reverse.find? (fun p => p.1 == key)).map (fun p => p.2)

/-- Rendering of a non-string JSON value.  Python keeps the raw parsed value
in the task dict; since the draft is modelled with `String` fields, such a
value is represented by this rendering.  No claim exercises this corner (it
would need a completion reply whose `title`/`description` is not a string). -/
def renderJsonFuel : Nat → Json → String
  | _, Json.null => "None"
  | _, Json.bool b => if b then "True" else "False"
  | _, Json.num lx => lx
  | _, Json.str s => s
  | 0, Json.arr _ => ""
  | 0, Json.obj _ => ""
  | fuel + 1, Json.arr xs =>
    "[" ++ String.intercalate ", " (xs.map (renderJsonFuel fuel)) ++ "]"
  | fuel + 1, Json.obj fs =>
    "\x7b" ++
      String.intercalate ", " (fs.map (fun p => p.1 ++ ": " ++ renderJsonFuel fuel p.2)) ++
      "\x7d"

def renderJson (j : Json) : String :=
  renderJsonFuel 1000000 j

/-- Python `task_data.get(key, default)` on the parsed object. -/
def getStrField (fields : List (String × Json)) (key dflt : String) : String :=
  match objGetLast fields key with
  | some (Json.str s) => s
  | some v => renderJson v
  | none => dflt

/-! ## Task Generator (generate_task_with_chatgpt, lines 273-371)

The completion call is an effect; its outcome (the raw reply text, or any
transport-level failure) is the explicit argument.  The function itself is
total: the Python `try` around the whole body converts every failure into the
two defaults. -/

structure TaskDraft where
  title : String
  description : String
deriving DecidableEq

def defaultTitle : String := "Daily Task"

def defaultDescription : String := "Task related to your goals"

/-- Lines 325-336: strip the reply, then strip a fenced code block.  Note the
heuristic fallback later operates on this cleaned text, not the raw reply. -/
def cleanResponseText (raw : String) : String :=
  let t := pyStrip raw
  if strStarts t "```json" then
    pyStrip ((splitOnStr ((splitOnStr t "```json").getD 1 "") "```").getD 0 "")
  else if strStarts t "```" then
    pyStrip ((splitOnStr ((splitOnStr t "```").getD 1 "") "```").getD 0 "")
  else t

/-- One iteration of the line-scan fallback loop (lines 355-359): a line
containing "title" (case-insensitively) overwrites the title, otherwise a
line containing "description" overwrites the description. -/
def scanStep (acc : TaskDraft) (line : String) : TaskDraft :=
  if strContains (toLowerStr line) "title" then
    { acc with title := stripQuotes (pyStrip (afterLastColon line)) }
  else if strContains (toLowerStr line) "description" then
    { acc with description := stripQuotes (pyStrip (afterLastColon line)) }
  else acc

/-- The JSON-failure fallback: scan the (cleaned) reply line by line. -/
def scanLines (text : String) : TaskDraft :=
  (splitOnChar '\n' text).foldl scanStep ⟨defaultTitle, defaultDescription⟩

/-- Source `generate_task_with_chatgpt`.  `chatResult` is the outcome of the
completion call: `.error` for any transport failure (timeout, auth error,
non-success status, a malformed response object), `.ok raw` for a received
reply text.  A parse producing a non-dict raises `AttributeError` at
`task_data.get`, which the outer `except` turns into the defaults. -/
def generate_task_with_chatgpt (chatResult : Except String String) : TaskDraft :=
  match chatResult with
  | .error _ => ⟨defaultTitle, defaultDescription⟩
  | .ok raw =>
    let cleaned := cleanResponseText raw
    match json_loads cleaned with
    | some (Json.obj fields) =>
      ⟨getStrField fields "title" defaultTitle,
        getStrField fields "description" defaultDescription⟩
    | some _ => ⟨defaultTitle, defaultDescription⟩
    | none => scanLines cleaned

/-! ## Task Writer (get_database_properties lines 233-271, create_task_page
lines 373-484)

A schema is the ordered property map of the database: name paired with type, where
a `select` type carries its ordered option names.  `PropValue` is the shape of
one entry of the record-creation payload. -/

inductive PropType where
  | title
  | select (options : List String)
  | date
  | other (typeName : String)
deriving DecidableEq

abbrev Schema := List (String × PropType)

inductive PropValue where
  | titleVal (content : String)
  | selectVal (optionName : String)
  | dateVal (start : String)
deriving DecidableEq

def isTitleType : PropType → Bool
  | .title => true
  | _ => false

/-- Lines 391-395: the first property whose type is `title`. -/
def findTitleProperty (props : Schema) : Option String :=
  (props.find? (fun p => isTitleType p.2)).map (fun p => p.1)

/-- Lines 390-400: the title-carrier resolution.  The fallback test is the
Python truthiness check `if not title_property:`, which fires both when no
title-typed property exists (`title_property is None`) and when the first
title-typed property has the falsy name `""`; in either case the carrier is
the first key, and `none` models the `IndexError` that
`list(properties.keys())[0]` raises on an empty schema. -/
def resolveTitleProperty (props : Schema) : Option String :=
  match findTitleProperty props with
  | some n =>
    if n = "" then props.head?.map (fun (p : String × PropType) => p.1) else some n
  | none => props.head?.map (fun (p : String × PropType) => p.1)

/-- Lines 390-443: resolve the title carrier, then fill the title and, for
every other property, a default for `select` (first option, when options
exist) and `date` (today). -/
def buildPropertiesPayload (props : Schema) (taskTitle today : String) :
    Option (List (String × PropValue)) :=
  (resolveTitleProperty props).map (fun tp =>
    (tp, PropValue.titleVal taskTitle) ::
      props.filterMap (fun (p : String × PropType) =>
        if p.1 = tp then none
        else
          match p.2 with
          | PropType.select (o :: _) => some (p.1, PropValue.selectVal o)
          | PropType.date => some (p.1, PropValue.dateVal today)
          | _ => none))

/-! ## The effectful pipeline

`Env` fixes, for one run, everything the outside world feeds the program: the
HTTP status and raw body of each of the four remote calls, the parsed payload
of the successful responses, the completion-call outcome, the entropy draw and
the current date.  Every operation returns its result together with the list of
HTTP requests it issued, so that write-discipline claims are statable. -/

inductive ApiRequest where
  | getPage
  | getBlocks
  | getDatabase
  | chatCompletion
  | postCreate (props : List (String × PropValue)) (descriptionText : String)

def isPostCreate : ApiRequest → Bool
  | .postCreate _ _ => true
  | _ => false

/-- Number of record-creation POSTs in a request log. -/
def countPosts (log : List ApiRequest) : Nat :=
  log.countP isPostCreate

structure Env where
  /-- Status of `GET /v1/pages/id`. -/
  pageStatus : Nat
  /-- Raw body of that response (used in the error message). -/
  pageBody : String
  /-- Line 65 indexes `properties.title.title[0]` of the page body for a
  diagnostic print; this flag models that list being present but empty, in
  which case the indexing itself raises `IndexError` despite status 200. -/
  pageDiagRaises : Bool
  /-- Status of `GET /v1/blocks/id/children`. -/
  blocksStatus : Nat
  blocksBody : String
  /-- The `results` blocks of a successful children response. -/
  blocks : List Block
  /-- Status of `GET /v1/databases/id`. -/
  dbStatus : Nat
  dbBody : String
  /-- Line 256 indexes `database.title[0]` for a diagnostic print; this flag
  models that list being empty, which raises `IndexError` despite status 200. -/
  dbDiagRaises : Bool
  /-- The `properties` map of a successful database response, in iteration
  order. -/
  schema : Schema
  /-- Outcome of the chat completion call. -/
  chat : Except String String
  /-- The entropy draw behind `random.choice`. -/
  pick : Nat
  /-- Python `datetime.now().strftime("%Y-%m-%d")`. -/
  today : String
  /-- Status of `POST /v1/pages`. -/
  createStatus : Nat
  createBody : String
  /-- The `id` of a successful creation response. -/
  createId : String

/-- Source `read_goals_page` (lines 41-67): GET the page, raise on non-200 with the
status and body, then print diagnostics (which can themselves raise). -/
def read_goals_page (env : Env) : Except String Unit × List ApiRequest :=
  if env.pageStatus ≠ 200 then
    (.error ("Failed to read page: " ++ toString env.pageStatus ++ " - " ++ env.pageBody),
      [.getPage])
  else if env.pageDiagRaises then
    (.error "IndexError: list index out of range", [.getPage])
  else (.ok (), [.getPage])

/-- Source `get_page_content` (lines 69-165): read the page, GET its children,
raise on non-200, then flatten the blocks. -/
def get_page_content (env : Env) : Except String String × List ApiRequest :=
  match read_goals_page env with
  | (.error e, log) => (.error e, log)
  | (.ok _, log) =>
    if env.blocksStatus ≠ 200 then
      (.error
          ("Failed to get page blocks: " ++ toString env.blocksStatus ++ " - " ++
            env.blocksBody),
        log ++ [.getBlocks])
    else (.ok (flattenBlocks env.blocks), log ++ [.getBlocks])

/-- Source `get_database_properties` (lines 233-271). -/
def get_database_properties (env : Env) : Except String Schema × List ApiRequest :=
  if env.dbStatus ≠ 200 then
    (.error ("Failed to get database: " ++ toString env.dbStatus ++ " - " ++ env.dbBody),
      [.getDatabase])
  else if env.dbDiagRaises then
    (.error "IndexError: list index out of range", [.getDatabase])
  else (.ok env.schema, [.getDatabase])

/-- Source `create_task_page` (lines 373-484): fetch the schema, build the payload
(raising on an empty schema before any POST), POST the record, raise on
non-200, else return the new record id. -/
def create_task_page (env : Env) (taskData : TaskDraft) :
    Except String String × List ApiRequest :=
  match get_database_properties env with
  | (.error e, log) => (.error e, log)
  | (.ok props, log) =>
    match buildPropertiesPayload props taskData.title env.today with
    | none => (.error "IndexError: list index out of range", log)
    | some payload =>
      let log2 := log ++ [.postCreate payload taskData.description]
      if env.createStatus ≠ 200 then
        (.error
            ("Failed to create task: " ++ toString env.createStatus ++ " - " ++
              env.createBody),
          log2)
      else (.ok env.createId, log2)

/-- Source `generate_daily_task` (lines 486-524): the five pipeline steps in order.
The selected goal only parameterises the completion prompt, whose outcome
`env.chat` already fixes. -/
def generate_daily_task (env : Env) : Except String String × List ApiRequest :=
  match get_page_content env with
  | (.error e, log) => (.error e, log)
  | (.ok content, log) =>
    let tasks := extract_individual_tasks content
    let _selected := select_random_task tasks env.pick
    let draft := generate_task_with_chatgpt env.chat
    match create_task_page env draft with
    | (.error e, log2) => (.error e, log ++ [.chatCompletion] ++ log2)
    | (.ok taskId, log2) => (.ok taskId, log ++ [.chatCompletion] ++ log2)

/-- All steps strictly before the final record-creation POST succeed. -/
def stepsBeforeWriteOk (env : Env) : Bool :=
  (env.pageStatus == 200) && !env.pageDiagRaises && (env.blocksStatus == 200) &&
    (env.dbStatus == 200) && !env.dbDiagRaises && !env.schema.isEmpty

/-! ## Specification-side definitions

Each definition below transcribes the wording of a spec claim (not the code);
the refinement theorems compare them with the source translations above. -/

/-- First filter of claim C4: discard lines that start with a hash, are shorter
than 5 characters, or equal one of the four literal strings. -/
def survivesInitialFilter (line : String) : Bool :=
  !(strStarts line "#" || decide (line.length < 5) ||
      line == "" || line == " " || line == "-" || line == "*")

/-- Marker stripping of claim C4: at most one leading marker, checked in order
`"- "` (2 chars), `"1. "` (3 chars), `"☐ "` (2 chars). -/
def stripMarkerSpec (s : String) : String :=
  if strStarts s "- " then ⟨s.data.drop 2⟩
  else if strStarts s "1. " then ⟨s.data.drop 3⟩
  else if strStarts s "☐ " then ⟨s.data.drop 2⟩
  else s

/-- Extraction pipeline of claim C4, stage by stage: split on newline, strip,
discard empties; discard by the initial filter; strip one marker; discard
lines whose remaining length is at most 5. -/
def extractSpec (goalsContent : String) : List String :=
  let lines := ((splitOnChar '\n' goalsContent).map pyStrip).filter (fun l => l != "")
  (((lines.filter survivesInitialFilter).map stripMarkerSpec).filter
    (fun t => !decide (t.length ≤ 5)))

/-- The inline text runs of a block, `none` for unhandled kinds (claim C5). -/
def blockRuns? : Block → Option (List String)
  | .paragraph runs => some runs
  | .heading1 runs => some runs
  | .heading2 runs => some runs
  | .heading3 runs => some runs
  | .bulleted runs => some runs
  | .numbered runs => some runs
  | .todo runs => some runs
  | .toggle runs => some runs
  | .other _ => none

/-- The line marker of each handled kind (claim C5). -/
def blockMarker : Block → String
  | .paragraph _ => ""
  | .heading1 _ => "# "
  | .heading2 _ => "## "
  | .heading3 _ => "### "
  | .bulleted _ => "- "
  | .numbered _ => "1. "
  | .todo _ => "☐ "
  | .toggle _ => "▼ "
  | .other _ => ""

/-- Claim C5 as stated: a handled block whose concatenated inline text is the
empty string emits no line. -/
def flattenClaimEmptyText (blocks : List Block) : String :=
  String.intercalate "\n"
    (blocks.filterMap (fun b =>
      (blockRuns? b).bind (fun rs =>
        if String.join rs = "" then none else some (blockMarker b ++ String.join rs))))

/-- Claim C5 amended: a handled block whose *list of inline runs* is empty
emits no line (a block with runs present but all empty still emits one). -/
def flattenClaimAmended (blocks : List Block) : String :=
  String.intercalate "\n"
    (blocks.filterMap (fun b =>
      (blockRuns? b).bind (fun rs =>
        if rs = [] then none else some (blockMarker b ++ String.join rs))))

/-- The HTTP success class (2xx), the standard reading of the
phrase "success HTTP status" in claim C7. -/
def isHttpSuccess (status : Nat) : Bool :=
  200 ≤ status && status < 300

/-- Claim C9: a line that sets the title (contains "title" case-insensitively). -/
def titleLine (l : String) : Bool :=
  strContains (toLowerStr l) "title"

/-- Claim C9 amended: a line sets the description when it contains
"description" and does not also contain "title" (the title branch wins). -/
def descLine (l : String) : Bool :=
  !titleLine l && strContains (toLowerStr l) "description"

/-- Extraction rule of claim C9 from a matching line: everything after the last
colon, trimmed of whitespace, then of surrounding double quotes. -/
def colonPayload (l : String) : String :=
  stripQuotes (pyStrip (afterLastColon l))

/-- Claim C9 amended, in last-match form: the title comes from the last
title-setting line, the description from the last description-setting line,
with the defaults when no line matches. -/
def scanHeuristicSpec (text : String) : TaskDraft :=
  let lines := splitOnChar '\n' text
  { title :=
      match (lines.filter titleLine).getLast? with
      | some l => colonPayload l
      | none => defaultTitle,
    description :=
      match (lines.filter descLine).getLast? with
      | some l => colonPayload l
      | none => defaultDescription }

/-- Does this property type receive a default value in the payload (claim C2)?
`select` with at least one option, or `date`. -/
def getsDefault : PropType → Bool
  | PropType.select (_ :: _) => true
  | PropType.date => true
  | _ => false

/-! ## Helper lemmas -/

lemma dropWhile_head?_false {α} (p : α → Bool) (xs : List α) :
    ∀ c, (xs.dropWhile p).head? = some c → p c = false := by
  induction xs with
  | nil => intro c h; simp [List.dropWhile] at h
  | cons a t ih =>
    intro c h
    rw [List.dropWhile_cons] at h
    by_cases hp : p a
    · exact ih c (by simpa [hp] using h)
    · have : a = c := by simpa [hp] using h
      subst this
      simpa using hp

lemma dropWhile_eq_self_of_head {α} (p : α → Bool) (xs : List α)
    (h : ∀ c, xs.head? = some c → p c = false) : xs.dropWhile p = xs := by
  cases xs with
  | nil => rfl
  | cons a t =>
    rw [List.dropWhile_cons]
    simp [h a rfl]

lemma head?_append_left {α} (y t : List α) (hy : y ≠ []) :
    (y ++ t).head? = y.head? := by
  cases y with
  | nil => exact absurd rfl hy
  | cons a l => rfl

lemma stripEnds_idem (p : Char → Bool) (cs : List Char) :
    stripEnds p (stripEnds p cs) = stripEnds p cs := by
  unfold stripEnds
  obtain ⟨t, ht⟩ := List.rdropWhile_prefix p (List.dropWhile p cs)
  have h1 : List.dropWhile p (List.rdropWhile p (List.dropWhile p cs)) =
      List.rdropWhile p (List.dropWhile p cs) := by
    apply dropWhile_eq_self_of_head
    intro c hc
    have hne : List.rdropWhile p (List.dropWhile p cs) ≠ [] := by
      intro h0
      rw [h0] at hc
      simp at hc
    have hc2 : (List.dropWhile p cs).head? = some c := by
      rw [← ht, head?_append_left _ _ hne]
      exact hc
    exact dropWhile_head?_false p cs c hc2
  rw [h1]
  exact List.rdropWhile_idempotent p (List.dropWhile p cs)

lemma pyStrip_idem (s : String) : pyStrip (pyStrip s) = pyStrip s :=
  congrArg String.mk (stripEnds_idem pyIsSpace s.data)

lemma filterMap_congr_mem {α β} {f g : α → Option β} (l : List α)
    (h : ∀ a ∈ l, f a = g a) : l.filterMap f = l.filterMap g := by
  induction l with
  | nil => rfl
  | cons a t ih =>
    simp only [List.filterMap_cons, h a (List.mem_cons_self a t),
      ih (fun x hx => h x (List.mem_cons_of_mem a hx))]

/-- Pointwise agreement of the source block flattening with the table-driven
description of the amended claim. -/
lemma flattenBlock_eq_claim (b : Block) :
    flattenBlock b = (blockRuns? b).bind (fun rs =>
      if rs = [] then none else some (blockMarker b ++ String.join rs)) := by
  cases b with
  | paragraph runs => cases runs <;> rfl
  | heading1 runs => cases runs <;> rfl
  | heading2 runs => cases runs <;> rfl
  | heading3 runs => cases runs <;> rfl
  | bulleted runs => cases runs <;> rfl
  | numbered runs => cases runs <;> rfl
  | todo runs => cases runs <;> rfl
  | toggle runs => cases runs <;> rfl
  | other k => rfl

/-! ## Claim C3 -/

/-- Claim C3: the Task Generator is a total function of the completion-call
outcome - it returns a draft (a title and a description) for every outcome,
and on any completion-call failure it returns exactly the two defaults
instead of propagating the error. -/
theorem generate_task_total_on_failure (r : Except String String) :
    (∃ t d, generate_task_with_chatgpt r = ⟨t, d⟩) ∧
      (∀ e, r = .error e →
        generate_task_with_chatgpt r = ⟨defaultTitle, defaultDescription⟩) := by
  constructor
  · exact ⟨(generate_task_with_chatgpt r).title,
      (generate_task_with_chatgpt r).description, rfl⟩
  · intro e he
    subst he
    rfl

theorem generate_task_total_on_failure_witness :
    generate_task_with_chatgpt (Except.error "timeout") =
      ⟨defaultTitle, defaultDescription⟩ :=
  (generate_task_total_on_failure (Except.error "timeout")).2 "timeout" rfl

/-! ## Claim C6 -/

/-- Fields the parsed object does not carry look up to `none`, so the
`task_data.get` default is taken. -/
lemma objGetLast_eq_none_of_missing {fields : List (String × Json)} {k : String}
    (h : ∀ p ∈ fields, p.1 ≠ k) : objGetLast fields k = none := by
  unfold objGetLast
  have hfind : fields.reverse.find? (fun p => p.1 == k) = none := by
    rw [List.find?_eq_none]
    intro p hp
    simpa using h p (List.mem_reverse.mp hp)
  rw [hfind]
  rfl

/-- Claim C6: the exact reply parses verbatim; the same reply wrapped in
```json fences is de-fenced and parsed; a successful parse substitutes the
default for a missing key - instanced for a missing description and a missing
title, and proved universally: on *every* reply whose cleaned text parses to
an object, an absent "title" key yields the default title and an absent
"description" key the default description; unparsable garbage without
"title"/"description" tokens yields exactly the two literal defaults. -/
theorem generate_task_parse_examples :
    generate_task_with_chatgpt
        (.ok "\x7b\"title\":\"Pack a gym bag\",\"description\":\"Lay out clothes and shoes tonight.\"\x7d") =
        ⟨"Pack a gym bag", "Lay out clothes and shoes tonight."⟩ ∧
      generate_task_with_chatgpt
        (.ok "```json\n\x7b\"title\":\"Pack a gym bag\",\"description\":\"Lay out clothes and shoes tonight.\"\x7d\n```") =
        ⟨"Pack a gym bag", "Lay out clothes and shoes tonight."⟩ ∧
      generate_task_with_chatgpt (.ok "\x7b\"title\":\"Pack a gym bag\"\x7d") =
        ⟨"Pack a gym bag", defaultDescription⟩ ∧
      generate_task_with_chatgpt
        (.ok "\x7b\"description\":\"Lay out clothes and shoes tonight.\"\x7d") =
        ⟨defaultTitle, "Lay out clothes and shoes tonight."⟩ ∧
      generate_task_with_chatgpt (.ok "Sorry, something went wrong!") =
        ⟨defaultTitle, defaultDescription⟩ ∧
      (∀ raw fields, json_loads (cleanResponseText raw) = some (Json.obj fields) →
        ((∀ p ∈ fields, p.1 ≠ "title") →
          (generate_task_with_chatgpt (.ok raw)).title = defaultTitle) ∧
        ((∀ p ∈ fields, p.1 ≠ "description") →
          (generate_task_with_chatgpt (.ok raw)).description = defaultDescription)) := by
  refine ⟨rfl, rfl, rfl, rfl, rfl, ?_⟩
  intro raw fields hparse
  constructor
  · intro hmiss
    simp only [generate_task_with_chatgpt, hparse]
    show getStrField fields "title" defaultTitle = defaultTitle
    unfold getStrField
    rw [objGetLast_eq_none_of_missing hmiss]
  · intro hmiss
    simp only [generate_task_with_chatgpt, hparse]
    show getStrField fields "description" defaultDescription = defaultDescription
    unfold getStrField
    rw [objGetLast_eq_none_of_missing hmiss]

theorem generate_task_parse_examples_witness :
    json_loads (cleanResponseText "\x7b\"title\":\"Pack a gym bag\"\x7d") =
        some (Json.obj [("title", Json.str "Pack a gym bag")]) ∧
      (generate_task_with_chatgpt (.ok "\x7b\"title\":\"Pack a gym bag\"\x7d")).description =
        defaultDescription :=
  ⟨rfl,
    (generate_task_parse_examples.2.2.2.2.2 "\x7b\"title\":\"Pack a gym bag\"\x7d"
        [("title", Json.str "Pack a gym bag")] rfl).2
      (by decide)⟩

/-! ## Claim C8 -/

/-- Claim C8: on the empty candidate list the Selector returns the literal
fallback; on a non-empty list it returns a member, and enumerating the
uniform entropy draws `0, ..., n-1` reproduces the candidate list itself -
each position is selected by exactly one draw, so a value occurring twice has
double weight. -/
theorem select_random_task_spec (tasks : List String) (pick : Nat) :
    (tasks = [] → select_random_task tasks pick = "Review and update your goals") ∧
      (tasks ≠ [] → select_random_task tasks pick ∈ tasks) ∧
      (List.range tasks.length).map (fun r => select_random_task tasks r) = tasks := by
  refine ⟨?_, ?_, ?_⟩
  · intro h
    subst h
    rfl
  · intro h
    match tasks with
    | [] => exact absurd rfl h
    | t :: ts => exact List.get_mem _ _ _
  · match tasks with
    | [] => rfl
    | t :: ts =>
      apply List.ext_getElem
      · simp
      · intro n h1 h2
        simp only [List.getElem_map, List.getElem_range]
        show (t :: ts).get ⟨n % (t :: ts).length, _⟩ = _
        simp only [List.get_eq_getElem, Nat.mod_eq_of_lt h2]

theorem select_random_task_spec_witness :
    select_random_task [] 7 = "Review and update your goals" ∧
      select_random_task ["Learn Spanish", "Run a marathon"] 3 ∈
        ["Learn Spanish", "Run a marathon"] :=
  ⟨(select_random_task_spec [] 7).1 rfl,
    (select_random_task_spec ["Learn Spanish", "Run a marathon"] 3).2.1 (by decide)⟩

/-! ## Claim C10 -/

/-- Claim C10: with an empty schema the Task Writer fails while resolving the
title carrier (the model of `list(properties.keys())[0]` raising
`IndexError`), before any record-creation POST is issued. -/
theorem create_task_page_empty_schema (env : Env) (d : TaskDraft)
    (h200 : env.dbStatus = 200) (hdiag : env.dbDiagRaises = false)
    (hempty : env.schema = []) :
    (create_task_page env d).1 = .error "IndexError: list index out of range" ∧
      countPosts (create_task_page env d).2 = 0 := by
  unfold create_task_page get_database_properties
  simp [h200, hdiag, hempty, buildPropertiesPayload, resolveTitleProperty,
    findTitleProperty, countPosts,
    isPostCreate]

def envEmptySchema : Env :=
  { pageStatus := 200, pageBody := "", pageDiagRaises := false,
    blocksStatus := 200, blocksBody := "", blocks := [],
    dbStatus := 200, dbBody := "", dbDiagRaises := false, schema := [],
    chat := .ok "", pick := 0, today := "2026-10-12",
    createStatus := 200, createBody := "", createId := "new-page" }

theorem create_task_page_empty_schema_witness :
    (create_task_page envEmptySchema ⟨"T", "D"⟩).1 =
        .error "IndexError: list index out of range" ∧
      countPosts (create_task_page envEmptySchema ⟨"T", "D"⟩).2 = 0 :=
  create_task_page_empty_schema envEmptySchema ⟨"T", "D"⟩ rfl rfl rfl

/-! ## Claim C5 -/

/-- Counterexample to claim C5 as stated: a heading block whose single inline
run is the empty string has empty inline text, yet the code emits the line
"# " for it (the guard tests the run list, not the text). -/
theorem flatten_empty_text_counterexample :
    flattenBlocks [Block.heading1 [""]] = "# " ∧
      flattenClaimEmptyText [Block.heading1 [""]] = "" ∧
      ("# " : String) ≠ "" := by
  refine ⟨rfl, rfl, ?_⟩
  decide

/-- Claim C5 amended: each block maps to zero or one line by kind with the
stated markers, a block is skipped exactly when its kind is unhandled or its
*list of inline runs* is empty, and the lines are joined with newlines in
block order. -/
theorem flattenBlocks_matches_amended_claim (blocks : List Block) :
    flattenBlocks blocks = flattenClaimAmended blocks := by
  unfold flattenBlocks flattenClaimAmended
  exact congrArg (String.intercalate "\n")
    (filterMap_congr_mem blocks (fun b _ => flattenBlock_eq_claim b))

/-! ## Claim C4 -/

lemma listStartsWith_head {p : Char} {ps cs : List Char}
    (h : listStartsWith (p :: ps) cs = true) : listStartsWith [p] cs = true := by
  cases cs with
  | nil => simp [listStartsWith] at h
  | cons c rest =>
    simp [listStartsWith] at h ⊢
    exact h.1

lemma strStarts_double_hash {l : String} (h : strStarts l "##" = true) :
    strStarts l "#" = true := by
  have h2 : listStartsWith ('#' :: ['#']) l.data = true := h
  exact listStartsWith_head h2

lemma strStarts_triple_hash {l : String} (h : strStarts l "###" = true) :
    strStarts l "#" = true := by
  have h2 : listStartsWith ('#' :: ['#', '#']) l.data = true := h
  exact listStartsWith_head h2

/-- Three hash checks of the source collapse to the single one of the claim. -/
lemma isSkipped_eq_not_survives (l : String) :
    isSkippedLine l = !survivesInitialFilter l := by
  unfold isSkippedLine survivesInitialFilter
  cases h1 : strStarts l "#"
  · have h2 : strStarts l "##" = false := by
      cases hx : strStarts l "##"
      · rfl
      · rw [strStarts_double_hash hx] at h1
        exact absurd h1 (by simp)
    have h3 : strStarts l "###" = false := by
      cases hx : strStarts l "###"
      · rfl
      · rw [strStarts_triple_hash hx] at h1
        exact absurd h1 (by simp)
    simp [h1, h2, h3]
  · simp [h1]

/-- The source marker stripping is the claim marker stripping. -/
lemma stripTaskMarker_eq_spec (s : String) : stripTaskMarker s = stripMarkerSpec s := rfl

/-- One loop iteration agrees with the stages of the claim pipeline, on lines that
are already stripped (as every line reaching the loop is). -/
lemma extractLine_eq_spec (l : String) (hfix : pyStrip l = l) :
    extractLine l =
      if survivesInitialFilter l = true then
        (if (!decide ((stripMarkerSpec l).length ≤ 5)) = true
          then some (stripMarkerSpec l) else none)
      else none := by
  unfold extractLine
  rw [isSkipped_eq_not_survives]
  cases hs : survivesInitialFilter l
  · simp
  · simp only [Bool.not_true, Bool.false_eq_true, if_false, if_true]
    have hmk : stripTaskMarker (pyStrip l) = stripMarkerSpec l := by
      rw [hfix]
      exact stripTaskMarker_eq_spec l
    rw [hmk]
    by_cases h5 : 5 < (stripMarkerSpec l).length
    · have hne : stripMarkerSpec l ≠ "" := by
        intro h0
        rw [h0] at h5
        exact absurd h5 (by decide)
      have h6 : ¬((stripMarkerSpec l).length ≤ 5) := by omega
      simp [h5, hne, h6]
    · have h6 : (stripMarkerSpec l).length ≤ 5 := by omega
      simp [h5, h6]

/-- Fusing the filter / map / filter pipeline of the claim into the single accumulating
loop of the source. -/
lemma filterMap_as_pipeline {α β} (L : List α) (f : α → Option β) (p : α → Bool)
    (m : α → β) (q : β → Bool)
    (h : ∀ l ∈ L, f l =
      if p l = true then (if q (m l) = true then some (m l) else none) else none) :
    L.filterMap f = ((L.filter p).map m).filter q := by
  induction L with
  | nil => rfl
  | cons a t ih =>
    have ha := h a (List.mem_cons_self a t)
    have ht := ih (fun x hx => h x (List.mem_cons_of_mem a hx))
    rw [List.filterMap_cons, ha, List.filter_cons]
    by_cases hp : p a = true
    · by_cases hq : q (m a) = true
      · simp [hp, hq, List.filter_cons, ht]
      · simp [hp, hq, ht]
    · simp [hp, ht]

/-- Claim C4: the Task Extractor equals the staged pipeline of the claim (split,
strip, drop empties; drop hash-initial / short / literal-marker lines; strip
one leading marker in the stated order; drop remainders of length at most 5),
and consequently every emitted line has at least 6 characters. -/
theorem extract_individual_tasks_spec (g : String) :
    extract_individual_tasks g = extractSpec g ∧
      ∀ t ∈ extract_individual_tasks g, 6 ≤ t.length := by
  have hfix : ∀ l ∈ ((splitOnChar '\n' g).map pyStrip).filter (fun l => l != ""),
      pyStrip l = l := by
    intro l hl
    obtain ⟨y, _, rfl⟩ := List.mem_map.mp (List.mem_filter.mp hl).1
    exact pyStrip_idem y
  constructor
  · unfold extract_individual_tasks extractSpec
    apply filterMap_as_pipeline
    intro l hl
    exact extractLine_eq_spec l (hfix l hl)
  · intro t ht
    obtain ⟨l, hl, hfl⟩ := List.mem_filterMap.mp ht
    rw [extractLine_eq_spec l (hfix l hl)] at hfl
    by_cases hs : survivesInitialFilter l = true
    · rw [if_pos hs] at hfl
      by_cases h5 : (!decide ((stripMarkerSpec l).length ≤ 5)) = true
      · rw [if_pos h5] at hfl
        injection hfl with hfl
        subst hfl
        simp at h5
        omega
      · rw [if_neg h5] at hfl
        exact absurd hfl (by simp)
    · rw [if_neg hs] at hfl
      exact absurd hfl (by simp)

theorem extract_individual_tasks_spec_witness :
    extract_individual_tasks "# Goals\n- Learn Spanish\n- Run a marathon\n" =
        extractSpec "# Goals\n- Learn Spanish\n- Run a marathon\n" ∧
      6 ≤ ("Learn Spanish" : String).length :=
  ⟨(extract_individual_tasks_spec "# Goals\n- Learn Spanish\n- Run a marathon\n").1,
    (extract_individual_tasks_spec "# Goals\n- Learn Spanish\n- Run a marathon\n").2
      "Learn Spanish" (by decide)⟩

/-! ## Claim C9 -/

lemma getLast?_cons_form {α} (a : α) (l : List α) :
    (a :: l).getLast? =
      match l.getLast? with
      | some b => some b
      | none => some a := by
  cases l with
  | nil => rfl
  | cons b t =>
    rw [List.getLast?_cons_cons]
    cases h : (b :: t).getLast? with
    | none => exact absurd (List.getLast?_eq_none_iff.mp h) (by simp)
    | some c => rfl

/-- The fold of the line-scan loop, characterised by the last matching lines.
The accumulator is generalised so the induction goes through. -/
lemma foldl_scanStep (lines : List String) (acc : TaskDraft) :
    lines.foldl scanStep acc =
      { title :=
          match (lines.filter titleLine).getLast? with
          | some l => colonPayload l
          | none => acc.title,
        description :=
          match (lines.filter descLine).getLast? with
          | some l => colonPayload l
          | none => acc.description } := by
  induction lines generalizing acc with
  | nil => rfl
  | cons l ls ih =>
    rw [List.foldl_cons, ih (scanStep acc l), List.filter_cons, List.filter_cons]
    by_cases hT : titleLine l = true
    · have hT' : strContains (toLowerStr l) "title" = true := hT
      have hD : descLine l = false := by simp [descLine, hT]
      rw [if_pos hT, if_neg (by simp [hD]), getLast?_cons_form]
      have hstep : scanStep acc l =
          { acc with title := colonPayload l } := by
        unfold scanStep
        rw [if_pos hT']
        rfl
      rw [hstep]
      cases hx : (ls.filter titleLine).getLast? <;> rfl
    · have hTf : titleLine l = false := by
        cases htl : titleLine l
        · rfl
        · exact absurd htl hT
      have hCf : strContains (toLowerStr l) "title" = false := hTf
      by_cases hD : strContains (toLowerStr l) "description" = true
      · have hDl : descLine l = true := by simp [descLine, hTf, hD]
        rw [if_neg (by simp [hTf]), if_pos hDl, getLast?_cons_form]
        have hstep : scanStep acc l =
            { acc with description := colonPayload l } := by
          unfold scanStep
          rw [if_neg (by simp [hCf]), if_pos hD]
          rfl
        rw [hstep]
        cases hx : (ls.filter descLine).getLast? <;> rfl
      · have hDf : strContains (toLowerStr l) "description" = false := by
          cases hdc : strContains (toLowerStr l) "description"
          · rfl
          · exact absurd hdc hD
        have hDl : descLine l = false := by simp [descLine, hDf]
        rw [if_neg (by simp [hTf]), if_neg (by simp [hDl])]
        have hstep : scanStep acc l = acc := by
          unfold scanStep
          rw [if_neg (by simp [hCf]), if_neg (by simp [hDf])]
        rw [hstep]

/-- Counterexample to claim C9 as stated: on the reply
`"description of title: X"` (strict JSON parse fails), the single line
contains "description", and the rule of the claim computes `"X"` for it, yet the
code leaves the description at its default - the `elif` gives the title
branch precedence on lines containing both tokens. -/
theorem generate_task_scan_counterexample :
    generate_task_with_chatgpt (.ok "description of title: X") =
        ⟨"X", defaultDescription⟩ ∧
      strContains (toLowerStr "description of title: X") "description" = true ∧
      colonPayload "description of title: X" = "X" ∧
      json_loads (cleanResponseText "description of title: X") = none ∧
      ("X" : String) ≠ defaultDescription := by
  refine ⟨rfl, rfl, rfl, rfl, by decide⟩

/-- Claim C9 amended: when strict JSON parsing of the *cleaned* (trimmed and
fence-stripped) reply fails, the generator scans the lines of the cleaned reply;
the title is taken (after-last-colon, trimmed, quote-stripped) from the last
line containing "title" case-insensitively, the description from the last
line containing "description" but not "title" (the title branch wins on a
line with both); the defaults are kept where no line matches. -/
theorem generate_task_fallback_scan (raw : String)
    (hfail : json_loads (cleanResponseText raw) = none) :
    generate_task_with_chatgpt (.ok raw) = scanHeuristicSpec (cleanResponseText raw) := by
  simp only [generate_task_with_chatgpt, hfail]
  unfold scanLines scanHeuristicSpec
  rw [foldl_scanStep]

theorem generate_task_fallback_scan_witness :
    json_loads (cleanResponseText "Title: Go for a walk\nDescription: Enjoy it.") = none ∧
      generate_task_with_chatgpt (.ok "Title: Go for a walk\nDescription: Enjoy it.") =
        scanHeuristicSpec
          (cleanResponseText "Title: Go for a walk\nDescription: Enjoy it.") :=
  ⟨rfl, generate_task_fallback_scan "Title: Go for a walk\nDescription: Enjoy it." rfl⟩

/-! ## Pipeline helper lemmas -/

/-- On a non-empty schema the title carrier resolves, to the first title-typed
field when its name is non-empty, and to the first field when no title-typed
field exists or the one found has the falsy name `""`. -/
lemma resolveTitleProperty_spec (props : Schema) (hne : props ≠ []) :
    ∃ tp, resolveTitleProperty props = some tp ∧
      ((findTitleProperty props = some tp ∧ tp ≠ "") ∨
        ((findTitleProperty props = none ∨ findTitleProperty props = some "") ∧
          props.head?.map Prod.fst = some tp)) := by
  unfold resolveTitleProperty
  cases hf : findTitleProperty props with
  | some n =>
    by_cases hn : n = ""
    · subst hn
      cases props with
      | nil => exact absurd rfl hne
      | cons p ps => exact ⟨p.1, by simp, Or.inr ⟨Or.inr rfl, rfl⟩⟩
    · exact ⟨n, by simp [hn], Or.inl ⟨rfl, hn⟩⟩
  | none =>
    cases props with
    | nil => exact absurd rfl hne
    | cons p ps => exact ⟨p.1, rfl, Or.inr ⟨Or.inl rfl, rfl⟩⟩

/-- A non-empty schema always yields a payload (the title carrier resolves). -/
lemma buildPayload_isSome (props : Schema) (t today : String) (hne : props ≠ []) :
    ∃ pl, buildPropertiesPayload props t today = some pl := by
  obtain ⟨tp, htp, -⟩ := resolveTitleProperty_spec props hne
  unfold buildPropertiesPayload
  rw [htp]
  exact ⟨_, rfl⟩

lemma get_page_content_log (env : Env) : countPosts (get_page_content env).2 = 0 := by
  unfold get_page_content read_goals_page
  by_cases h1 : env.pageStatus = 200 <;> by_cases h2 : env.pageDiagRaises = true <;>
    by_cases h3 : env.blocksStatus = 200 <;>
    simp [h1, h2, h3, countPosts, isPostCreate]

lemma get_page_content_ok (env : Env) (h1 : env.pageStatus = 200)
    (h2 : env.pageDiagRaises = false) (h3 : env.blocksStatus = 200) :
    get_page_content env = (.ok (flattenBlocks env.blocks), [.getPage, .getBlocks]) := by
  simp [get_page_content, read_goals_page, h1, h2, h3]

lemma get_page_content_err (env : Env)
    (h : ¬(env.pageStatus = 200 ∧ env.pageDiagRaises = false ∧ env.blocksStatus = 200)) :
    ∃ e, (get_page_content env).1 = .error e := by
  by_cases h1 : env.pageStatus = 200
  · by_cases h2 : env.pageDiagRaises = false
    · by_cases h3 : env.blocksStatus = 200
      · exact absurd ⟨h1, h2, h3⟩ h
      · exact ⟨"Failed to get page blocks: " ++ toString env.blocksStatus ++ " - " ++
            env.blocksBody, by simp [get_page_content, read_goals_page, h1, h2, h3]⟩
    · have h2' : env.pageDiagRaises = true := by
        revert h2
        cases env.pageDiagRaises <;> simp
      exact ⟨"IndexError: list index out of range",
        by simp [get_page_content, read_goals_page, h1, h2']⟩
  · exact ⟨"Failed to read page: " ++ toString env.pageStatus ++ " - " ++ env.pageBody,
      by simp [get_page_content, read_goals_page, h1]⟩

lemma create_task_page_posts_one (env : Env) (d : TaskDraft)
    (h1 : env.dbStatus = 200) (h2 : env.dbDiagRaises = false)
    (h3 : env.schema ≠ []) :
    countPosts (create_task_page env d).2 = 1 ∧
      (env.createStatus = 200 → (create_task_page env d).1 = .ok env.createId) ∧
      (env.createStatus ≠ 200 → ∃ e, (create_task_page env d).1 = .error e) := by
  have hdb : get_database_properties env = (.ok env.schema, [.getDatabase]) := by
    simp [get_database_properties, h1, h2]
  obtain ⟨pl, hpl⟩ := buildPayload_isSome env.schema d.title env.today h3
  refine ⟨?_, ?_, ?_⟩
  · by_cases h4 : env.createStatus = 200 <;>
      simp [create_task_page, hdb, hpl, h4, countPosts, isPostCreate]
  · intro h4
    simp [create_task_page, hdb, hpl, h4]
  · intro h4
    exact ⟨"Failed to create task: " ++ toString env.createStatus ++ " - " ++
      env.createBody, by simp [create_task_page, hdb, hpl, h4]⟩

lemma create_task_page_pre_fail (env : Env) (d : TaskDraft)
    (h : ¬(env.dbStatus = 200 ∧ env.dbDiagRaises = false ∧ env.schema ≠ [])) :
    countPosts (create_task_page env d).2 = 0 ∧
      ∃ e, (create_task_page env d).1 = .error e := by
  by_cases h1 : env.dbStatus = 200
  · by_cases h2 : env.dbDiagRaises = false
    · by_cases h3 : env.schema = []
      · have hdb : get_database_properties env = (.ok env.schema, [.getDatabase]) := by
          simp [get_database_properties, h1, h2]
        have hpl : buildPropertiesPayload env.schema d.title env.today = none := by
          rw [h3]
          rfl
        constructor
        · simp [create_task_page, hdb, hpl, countPosts, isPostCreate]
        · exact ⟨"IndexError: list index out of range",
            by simp [create_task_page, hdb, hpl]⟩
      · exact absurd ⟨h1, h2, h3⟩ h
    · have h2' : env.dbDiagRaises = true := by
        revert h2
        cases env.dbDiagRaises <;> simp
      constructor
      · simp [create_task_page, get_database_properties, h1, h2', countPosts, isPostCreate]
      · exact ⟨"IndexError: list index out of range",
          by simp [create_task_page, get_database_properties, h1, h2']⟩
  · constructor
    · simp [create_task_page, get_database_properties, h1, countPosts, isPostCreate]
    · exact ⟨"Failed to get database: " ++ toString env.dbStatus ++ " - " ++ env.dbBody,
        by simp [create_task_page, get_database_properties, h1]⟩

/-! ## Claim C1 -/

/-- Claim C1: one run issues at most one record-creation POST ever (no
retries); exactly one when every step before the final write succeeds; and
zero - with the run aborting in an error - when any step before the final
write raises.  The completion call never raises, so it does not appear in the
success condition. -/
theorem generate_daily_task_write_discipline (env : Env) :
    countPosts (generate_daily_task env).2 ≤ 1 ∧
      (stepsBeforeWriteOk env = true →
        countPosts (generate_daily_task env).2 = 1) ∧
      (stepsBeforeWriteOk env = true → env.createStatus = 200 →
        (generate_daily_task env).1 = .ok env.createId) ∧
      (stepsBeforeWriteOk env = false →
        countPosts (generate_daily_task env).2 = 0 ∧
          ∃ e, (generate_daily_task env).1 = .error e) := by
  by_cases hok : stepsBeforeWriteOk env = true
  · have hcomp : ((((env.pageStatus = 200 ∧ env.pageDiagRaises = false) ∧
        env.blocksStatus = 200) ∧ env.dbStatus = 200) ∧ env.dbDiagRaises = false) ∧
        ¬env.schema = [] := by
      simpa [stepsBeforeWriteOk] using hok
    obtain ⟨⟨⟨⟨⟨h1, h2⟩, h3⟩, h4⟩, h5⟩, h6⟩ := hcomp
    have hgpc := get_page_content_ok env h1 h2 h3
    rcases hc : create_task_page env (generate_task_with_chatgpt env.chat)
      with ⟨cres, clog⟩
    have hcp := create_task_page_posts_one env (generate_task_with_chatgpt env.chat)
      h4 h5 h6
    rw [hc] at hcp
    have hgen : generate_daily_task env =
        (cres, [.getPage, .getBlocks] ++ [.chatCompletion] ++ clog) := by
      unfold generate_daily_task
      rw [hgpc]
      cases cres <;> simp [hc]
    have hcount : countPosts (generate_daily_task env).2 = 1 := by
      rw [hgen]
      simp only [countPosts, List.countP_append]
      have : List.countP isPostCreate clog = 1 := hcp.1
      simp [isPostCreate, this]
    refine ⟨?_, fun _ => hcount, fun _ h200 => ?_, fun hfalse => ?_⟩
    · omega
    · rw [hgen]
      exact hcp.2.1 h200
    · rw [hok] at hfalse
      exact absurd hfalse (by simp)
  · have hok' : stepsBeforeWriteOk env = false := by
      revert hok
      cases stepsBeforeWriteOk env <;> simp
    have hmain : countPosts (generate_daily_task env).2 = 0 ∧
        ∃ e, (generate_daily_task env).1 = .error e := by
      by_cases hpage : env.pageStatus = 200 ∧ env.pageDiagRaises = false ∧
          env.blocksStatus = 200
      · obtain ⟨h1, h2, h3⟩ := hpage
        have hgpc := get_page_content_ok env h1 h2 h3
        have hdbfail : ¬(env.dbStatus = 200 ∧ env.dbDiagRaises = false ∧
            env.schema ≠ []) := by
          rintro ⟨h4, h5, h6⟩
          have : stepsBeforeWriteOk env = true := by
            simp [stepsBeforeWriteOk, h1, h2, h3, h4, h5, h6]
          rw [this] at hok'
          exact absurd hok' (by simp)
        have hcp := create_task_page_pre_fail env
          (generate_task_with_chatgpt env.chat) hdbfail
        rcases hc : create_task_page env (generate_task_with_chatgpt env.chat)
          with ⟨cres, clog⟩
        rw [hc] at hcp
        have hgen : generate_daily_task env =
            (cres, [.getPage, .getBlocks] ++ [.chatCompletion] ++ clog) := by
          unfold generate_daily_task
          rw [hgpc]
          cases cres <;> simp [hc]
        obtain ⟨e, he⟩ := hcp.2
        constructor
        · rw [hgen]
          simp only [countPosts, List.countP_append]
          have : List.countP isPostCreate clog = 0 := hcp.1
          simp [isPostCreate, this]
        · exact ⟨e, by rw [hgen]; exact he⟩
      · obtain ⟨e, he⟩ := get_page_content_err env hpage
        rcases hg : get_page_content env with ⟨res, log⟩
        rw [hg] at he
        simp only at he
        subst he
        have hgen : generate_daily_task env = (.error e, log) := by
          unfold generate_daily_task
          rw [hg]
        have hlog : countPosts log = 0 := by
          have := get_page_content_log env
          rw [hg] at this
          exact this
        rw [hgen]
        exact ⟨hlog, e, rfl⟩
    refine ⟨?_, fun habs => absurd habs hok, fun habs _ => absurd habs hok,
      fun _ => hmain⟩
    omega

def envHappy : Env :=
  { pageStatus := 200, pageBody := "", pageDiagRaises := false,
    blocksStatus := 200, blocksBody := "",
    blocks := [Block.heading1 ["Goals"], Block.bulleted ["Learn Spanish"],
      Block.bulleted ["Run a marathon"]],
    dbStatus := 200, dbBody := "", dbDiagRaises := false,
    schema := [("Name", PropType.title),
      ("Status", PropType.select ["To Do", "Done"]), ("When", PropType.date)],
    chat := .ok "\x7b\"title\":\"Practice verbs\",\"description\":\"Review ten verbs.\"\x7d",
    pick := 0, today := "2026-10-12",
    createStatus := 200, createBody := "", createId := "page-123" }

theorem generate_daily_task_write_discipline_witness :
    stepsBeforeWriteOk envHappy = true ∧
      countPosts (generate_daily_task envHappy).2 = 1 :=
  ⟨rfl, (generate_daily_task_write_discipline envHappy).2.1 rfl⟩

/-! ## Claim C2 -/

lemma keys_nodup_unique {props : Schema} (hnd : (props.map Prod.fst).Nodup)
    {n : String} {pt1 pt2 : PropType}
    (h1 : (n, pt1) ∈ props) (h2 : (n, pt2) ∈ props) : pt1 = pt2 := by
  induction props with
  | nil => cases h1
  | cons p ps ih =>
    rw [List.map_cons, List.nodup_cons] at hnd
    rcases List.mem_cons.mp h1 with h1a | h1b
    · rcases List.mem_cons.mp h2 with h2a | h2b
      · have h3 : (n, pt1) = (n, pt2) := h1a.trans h2a.symm
        exact ((Prod.mk.injEq _ _ _ _).mp h3).2
      · exfalso
        apply hnd.1
        rw [← h1a]
        exact List.mem_map.mpr ⟨(n, pt2), h2b, rfl⟩
    · rcases List.mem_cons.mp h2 with h2a | h2b
      · exfalso
        apply hnd.1
        rw [← h2a]
        exact List.mem_map.mpr ⟨(n, pt1), h1b, rfl⟩
      · exact ih hnd.2 h1b h2b

/-- Counterexample to claim C2 as stated: a schema whose only field `"Due"`
has type `date` (so no title-typed field exists).  The claim requires every
date-typed field to be set to the current date, but the code makes `"Due"`
the title carrier and gives it the draft title, not the date. -/
theorem create_payload_date_counterexample :
    buildPropertiesPayload [("Due", PropType.date)] "Ship the fix" "2026-10-12" =
        some [("Due", PropValue.titleVal "Ship the fix")] ∧
      PropValue.titleVal "Ship the fix" ≠ PropValue.dateVal "2026-10-12" := by
  refine ⟨rfl, by decide⟩

/-- Claim C2 amended: for a non-empty schema with distinct field names, the
payload exists (no raise), its first entry sets the title carrier to the draft
title - the carrier being the first title-typed field when its name is
non-empty, and the first field in iteration order when no title-typed field
exists or the one found has the falsy name `""` (the Python truthiness check
`if not title_property:`); every *other* select-typed field with at least one
option gets its first declared option, every *other* date-typed field gets
the current date, and every other field of any remaining type stays unset. -/
theorem create_payload_spec (props : Schema) (t today : String)
    (hne : props ≠ []) (hnd : (props.map Prod.fst).Nodup) :
    ∃ tp payload,
      buildPropertiesPayload props t today = some payload ∧
      ((findTitleProperty props = some tp ∧ tp ≠ "") ∨
        ((findTitleProperty props = none ∨ findTitleProperty props = some "") ∧
          props.head?.map Prod.fst = some tp)) ∧
      payload.head? = some (tp, PropValue.titleVal t) ∧
      (∀ n o os, (n, PropType.select (o :: os)) ∈ props → n ≠ tp →
        (n, PropValue.selectVal o) ∈ payload) ∧
      (∀ n, (n, PropType.date) ∈ props → n ≠ tp →
        (n, PropValue.dateVal today) ∈ payload) ∧
      (∀ n pt, (n, pt) ∈ props → n ≠ tp → getsDefault pt = false →
        ∀ v, (n, v) ∉ payload) := by
  obtain ⟨tp, htp, hchar⟩ := resolveTitleProperty_spec props hne
  refine ⟨tp, (tp, PropValue.titleVal t) ::
      props.filterMap (fun (p : String × PropType) =>
        if p.1 = tp then none
        else
          match p.2 with
          | PropType.select (o :: _) => some (p.1, PropValue.selectVal o)
          | PropType.date => some (p.1, PropValue.dateVal today)
          | _ => none), ?_, hchar, rfl, ?_, ?_, ?_⟩
  · unfold buildPropertiesPayload
    rw [htp]
    rfl
  · intro n o os hmem hneq
    apply List.mem_cons_of_mem
    apply List.mem_filterMap.mpr
    exact ⟨(n, PropType.select (o :: os)), hmem, by simp [hneq]⟩
  · intro n hmem hneq
    apply List.mem_cons_of_mem
    apply List.mem_filterMap.mpr
    exact ⟨(n, PropType.date), hmem, by simp [hneq]⟩
  · intro n pt hmem hneq hdef v hv
    rcases List.mem_cons.mp hv with hv1 | hv2
    · exact hneq ((Prod.mk.injEq _ _ _ _).mp hv1).1
    · obtain ⟨⟨m, q⟩, hmq, hf⟩ := List.mem_filterMap.mp hv2
      by_cases hmt : m = tp
      · simp [hmt] at hf
      · cases q with
        | title => simp [hmt] at hf
        | select opts =>
          cases opts with
          | nil => simp [hmt] at hf
          | cons o os =>
            simp only [hmt, if_false, if_neg] at hf
            have hmn : m = n := by
              have := ((Prod.mk.injEq _ _ _ _).mp (Option.some.inj hf)).1
              exact this
            subst hmn
            have hq : pt = PropType.select (o :: os) :=
              keys_nodup_unique hnd hmem hmq
            rw [hq] at hdef
            exact absurd hdef (by simp [getsDefault])
        | date =>
          simp only [hmt, if_false, if_neg] at hf
          have hmn : m = n := by
            have := ((Prod.mk.injEq _ _ _ _).mp (Option.some.inj hf)).1
            exact this
          subst hmn
          have hq : pt = PropType.date := keys_nodup_unique hnd hmem hmq
          rw [hq] at hdef
          exact absurd hdef (by simp [getsDefault])
        | other ty => simp [hmt] at hf

def schemaW : Schema :=
  [("Name", PropType.title), ("Status", PropType.select ["To Do", "Done"]),
    ("When", PropType.date)]

theorem create_payload_spec_witness :
    ∃ tp payload,
      buildPropertiesPayload schemaW "T" "2026-10-12" = some payload ∧
      ((findTitleProperty schemaW = some tp ∧ tp ≠ "") ∨
        ((findTitleProperty schemaW = none ∨ findTitleProperty schemaW = some "") ∧
          schemaW.head?.map Prod.fst = some tp)) ∧
      payload.head? = some (tp, PropValue.titleVal "T") ∧
      (∀ n o os, (n, PropType.select (o :: os)) ∈ schemaW → n ≠ tp →
        (n, PropValue.selectVal o) ∈ payload) ∧
      (∀ n, (n, PropType.date) ∈ schemaW → n ≠ tp →
        (n, PropValue.dateVal "2026-10-12") ∈ payload) ∧
      (∀ n pt, (n, pt) ∈ schemaW → n ≠ tp → getsDefault pt = false →
        ∀ v, (n, v) ∉ payload) :=
  create_payload_spec schemaW "T" "2026-10-12" (by decide) (by decide)

/-! ## Claim C7 -/

def env201 : Env :=
  { pageStatus := 201, pageBody := "Created", pageDiagRaises := false,
    blocksStatus := 200, blocksBody := "", blocks := [],
    dbStatus := 200, dbBody := "", dbDiagRaises := false,
    schema := [("Name", PropType.title)],
    chat := .ok "", pick := 0, today := "2026-10-12",
    createStatus := 200, createBody := "", createId := "id-1" }

/-- Counterexample to claim C7 as stated: 201 is an HTTP success status, yet
the document GET raises on it - the code tests `status != 200`, not the
HTTP success class. -/
theorem http_success_status_counterexample :
    isHttpSuccess 201 = true ∧
      (read_goals_page env201).1 = .error "Failed to read page: 201 - Created" := by
  refine ⟨rfl, rfl⟩

/-- Claim C7 amended: each of the four operations raises exactly when its
response status differs from 200 (2xx statuses other than 200 included), the
raised error carrying the status code and raw body; on a 200 response the
operation succeeds, except that the document GET and the schema GET can still
raise `IndexError` out of their diagnostic title lookup. -/
theorem http_status_checks (env : Env) (d : TaskDraft) :
    (env.pageStatus ≠ 200 →
      (read_goals_page env).1 =
        .error ("Failed to read page: " ++ toString env.pageStatus ++ " - " ++
          env.pageBody)) ∧
    (env.pageStatus = 200 → env.pageDiagRaises = false →
      (read_goals_page env).1 = .ok ()) ∧
    (env.pageStatus = 200 → env.pageDiagRaises = false → env.blocksStatus ≠ 200 →
      (get_page_content env).1 =
        .error ("Failed to get page blocks: " ++ toString env.blocksStatus ++ " - " ++
          env.blocksBody)) ∧
    (env.pageStatus = 200 → env.pageDiagRaises = false → env.blocksStatus = 200 →
      (get_page_content env).1 = .ok (flattenBlocks env.blocks)) ∧
    (env.dbStatus ≠ 200 →
      (get_database_properties env).1 =
        .error ("Failed to get database: " ++ toString env.dbStatus ++ " - " ++
          env.dbBody)) ∧
    (env.dbStatus = 200 → env.dbDiagRaises = false →
      (get_database_properties env).1 = .ok env.schema) ∧
    (env.dbStatus = 200 → env.dbDiagRaises = false → env.schema ≠ [] →
      env.createStatus ≠ 200 →
      (create_task_page env d).1 =
        .error ("Failed to create task: " ++ toString env.createStatus ++ " - " ++
          env.createBody)) ∧
    (env.dbStatus = 200 → env.dbDiagRaises = false → env.schema ≠ [] →
      env.createStatus = 200 → (create_task_page env d).1 = .ok env.createId) := by
  refine ⟨?_, ?_, ?_, ?_, ?_, ?_, ?_, ?_⟩
  · intro h
    simp [read_goals_page, h]
  · intro h1 h2
    simp [read_goals_page, h1, h2]
  · intro h1 h2 h3
    simp [get_page_content, read_goals_page, h1, h2, h3]
  · intro h1 h2 h3
    simp [get_page_content, read_goals_page, h1, h2, h3]
  · intro h
    simp [get_database_properties, h]
  · intro h1 h2
    simp [get_database_properties, h1, h2]
  · intro h1 h2 h3 h4
    have hdb : get_database_properties env = (.ok env.schema, [.getDatabase]) := by
      simp [get_database_properties, h1, h2]
    obtain ⟨pl, hpl⟩ := buildPayload_isSome env.schema d.title env.today h3
    simp [create_task_page, hdb, hpl, h4]
  · intro h1 h2 h3 h4
    have hdb : get_database_properties env = (.ok env.schema, [.getDatabase]) := by
      simp [get_database_properties, h1, h2]
    obtain ⟨pl, hpl⟩ := buildPayload_isSome env.schema d.title env.today h3
    simp [create_task_page, hdb, hpl, h4]

def env404 : Env :=
  { pageStatus := 404, pageBody := "missing", pageDiagRaises := false,
    blocksStatus := 200, blocksBody := "", blocks := [],
    dbStatus := 200, dbBody := "", dbDiagRaises := false,
    schema := [("Name", PropType.title)],
    chat := .ok "", pick := 0, today := "2026-10-12",
    createStatus := 200, createBody := "", createId := "id-2" }

theorem http_status_checks_witness :
    (read_goals_page env404).1 = .error "Failed to read page: 404 - missing" ∧
      (create_task_page env404 ⟨"T", "D"⟩).1 = .ok "id-2" :=
  ⟨(http_status_checks env404 ⟨"T", "D"⟩).1 (by decide),
    (http_status_checks env404 ⟨"T", "D"⟩).2.2.2.2.2.2.2 rfl rfl (by decide) rfl⟩

end NotionTask
